import Mathlib

/-!
# Verification of `opensock.c`

A shallow embedding of `src/opensock.c`: a privileged bootstrap helper that
opens a raw `AF_PACKET` socket filtered to EtherType `0x88b5`, joins the
link-layer multicast group `71:b3:d5:3a:6f:00` on the interface named on the
command line, relocates the socket to file descriptor 42 via `dup2`/`close`,
and replaces its process image with the target program via `execvp`.

The program is a straight line of system calls with early-exit error checks.
We model one run as a function from an environment (the command line plus the
outcome the kernel gives each system call) to the trace of calls and
diagnostics the program performs, together with the run's outcome (exit code
or image replacement).  The effect of the `dup2`/`close` relocation sequence
on the process's descriptor table is interpreted separately over the trace.
-/

namespace Opensock

/-- Linux `AF_PACKET` address family (link-layer packet sockets). -/
def AF_PACKET : Nat := 17

/-- `SOCK_RAW` socket type. -/
def SOCK_RAW : Nat := 3

/-- Linux `SOL_PACKET` socket option level. -/
def SOL_PACKET : Nat := 263

/-- Linux `PACKET_ADD_MEMBERSHIP` option name. -/
def PACKET_ADD_MEMBERSHIP : Nat := 1

/-- Linux `PACKET_MR_MULTICAST` membership type. -/
def PACKET_MR_MULTICAST : Nat := 0

/-- `htons` on a 16-bit value, modelled byte-order-explicitly: the result is
the byte sequence of the value in network byte order (big-endian), so
`htons 0x88b5 = [0x88, 0xb5]`. -/
def htons (x : Nat) : List Nat := [x / 256 % 256, x % 256]

/-- `struct packet_mreq` as initialised at lines 39-44 of the source:
interface index, membership type, address length, hardware address bytes. -/
structure packet_mreq where
  mr_ifindex : Nat
  mr_type : Nat
  mr_alen : Nat
  mr_address : List Nat
deriving DecidableEq, Repr

/-- One observable step of a run: a system call issued by the program, or a
diagnostic written to the error stream (`fprintf(stderr, ...)` / `perror`,
modelled by its fixed message prefix). -/
inductive Event where
  | sockCall (domain typ : Nat) (protocol : List Nat)
  | errMsg (msg : String)
  | ifLookup (name : String)
  | setsockoptCall (level optname : Nat) (req : packet_mreq)
  | dup2Call (oldfd newfd : Nat)
  | closeCall (fd : Nat)
  | execCall (file : String) (args : List String)
deriving DecidableEq, Repr

/-- How a run ends: `exited c` for `return c` from `main`, or `replaced` when
`execvp` succeeds and the process image is replaced by the target program
(found via the executable search path) with the given argument vector. -/
inductive Outcome where
  | exited (code : Nat)
  | replaced (file : String) (args : List String)
deriving DecidableEq, Repr

/-- The run's environment: the command line, and the outcome the kernel gives
each fallible system call.  `socketFd` is the descriptor `socket` returns
(`none` for failure); `ifIndexOf` is `if_nametoindex` (`0` means no such
interface); the booleans say whether `setsockopt`, `dup2`, `close` and
`execvp` succeed.  The source discards the results of `dup2` and `close`
(lines 53-54), so `main` below never reads `dup2Ok` or `closeOk`. -/
structure Env where
  argv : List String
  socketFd : Option Nat
  ifIndexOf : String → Nat
  setsockoptOk : Bool
  dup2Ok : Bool
  closeOk : Bool
  execOk : Bool

/-- `argv[i]`: the `i`-th command-line argument (the empty string out of
range; every use below is guarded by the source's `argc` check). -/
def nth (l : List String) (i : Nat) : String := l.getD i ""

/-- The embedding of `main` from `src/opensock.c` (lines 17-59): the trace of
events of the run and its outcome.  Every early-exit error check of the
source is an `if`/`match` here, in source order: argument count, `socket`,
`if_nametoindex`, `setsockopt`, then `dup2`, `close`, `execvp`. -/
def main (e : Env) : List Event × Outcome :=
  if e.argv.length < 3 then
    ([Event.errMsg ("Usage: " ++ nth e.argv 0 ++ " <interface> prog args ...")],
     Outcome.exited 1)
  else
    let sockEv := Event.sockCall AF_PACKET SOCK_RAW (htons 0x88b5)
    match e.socketFd with
    | none => ([sockEv, Event.errMsg "cannot open socket"], Outcome.exited 1)
    | some sock =>
      let iface := nth e.argv 1
      let ifidx := e.ifIndexOf iface
      if ifidx = 0 then
        ([sockEv, Event.ifLookup iface, Event.errMsg "cannot find interface"],
         Outcome.exited 1)
      else
        let multi : packet_mreq :=
          ⟨ifidx, PACKET_MR_MULTICAST, 6, [0x71, 0xb3, 0xd5, 0x3a, 0x6f, 0x00]⟩
        let ssoEv := Event.setsockoptCall SOL_PACKET PACKET_ADD_MEMBERSHIP multi
        if e.setsockoptOk then
          let prog := nth e.argv 2
          let args := e.argv.drop 2
          let pre := [sockEv, Event.ifLookup iface, ssoEv,
                      Event.dup2Call sock 42, Event.closeCall sock,
                      Event.execCall prog args]
          if e.execOk then
            (pre, Outcome.replaced prog args)
          else
            (pre ++ [Event.errMsg "exec failed"], Outcome.exited 1)
        else
          ([sockEv, Event.ifLookup iface, ssoEv, Event.errMsg "cannot setsockopt"],
           Outcome.exited 1)

/-- Event classifiers used to state trace properties. -/
def isSockCall : Event → Bool
  | Event.sockCall _ _ _ => true
  | _ => false

def isIfLookup : Event → Bool
  | Event.ifLookup _ => true
  | _ => false

def isDup2 : Event → Bool
  | Event.dup2Call _ _ => true
  | _ => false

def isClose : Event → Bool
  | Event.closeCall _ => true
  | _ => false

def isExec : Event → Bool
  | Event.execCall _ _ => true
  | _ => false

def isErrMsg : Event → Bool
  | Event.errMsg _ => true
  | _ => false

/-- `true` iff no interface lookup occurs before the first `socket` call in
the trace, scanning from the front. -/
def resolutionAfterSocket : List Event → Bool
  | [] => true
  | Event.ifLookup _ :: _ => false
  | Event.sockCall _ _ _ :: _ => true
  | _ :: rest => resolutionAfterSocket rest

/-- The effect of one trace event on the set of descriptors that refer to the
program's socket, per POSIX semantics: `dup2 o n` with `o = n` is a no-op;
otherwise, if `o` refers to the socket then afterwards `n` does too, and if
`o` does not then `n` no longer does (its previous occupant is closed);
`close f` removes `f`. -/
def applyFd (T : Finset Nat) : Event → Finset Nat
  | Event.dup2Call oldfd newfd =>
      if oldfd = newfd then T
      else if oldfd ∈ T then insert newfd T else T.erase newfd
  | Event.closeCall fd => T.erase fd
  | _ => T

/-- The set of descriptors referring to the program's own socket at the end
of the run: the singleton returned by `socket`, evolved by the `dup2` and
`close` events of the trace (empty when `socket` failed). -/
def socketFds (e : Env) : Finset Nat :=
  match e.socketFd with
  | none => ∅
  | some s => (main e).1.foldl applyFd {s}

/-- Concrete environments used to instantiate the theorems below. -/
def envUsage : Env := ⟨["opensock"], none, fun _ => 0, true, true, true, true⟩

def envNoSock : Env :=
  ⟨["opensock", "eth0", "/bin/true"], none, fun _ => 2, true, true, true, true⟩

def envNoIface : Env :=
  ⟨["opensock", "nope0", "/bin/true"], some 3, fun _ => 0, true, true, true, true⟩

def envNoSso : Env :=
  ⟨["opensock", "eth0", "/bin/true"], some 3, fun _ => 2, false, true, true, true⟩

def envExecFail : Env :=
  ⟨["opensock", "eth0", "/bin/none", "x"], some 3, fun _ => 2, true, true, true, false⟩

def envOk : Env :=
  ⟨["opensock", "eth0", "/bin/echo", "hello"], some 3, fun _ => 2, true, true, true, true⟩

/-- The environment where the kernel happens to hand out descriptor 42 for
the socket itself (all of 0-41 were already occupied at startup). -/
def env42 : Env :=
  ⟨["opensock", "eth0", "/bin/true"], some 42, fun _ => 2, true, true, true, true⟩

def env42b : Env :=
  ⟨["opensock", "eth0", "/bin/true"], some 42, fun _ => 2, true, true, true, true⟩

/-- The environment where the kernel refuses the `dup2` call (for instance a
descriptor limit below 42) while every checked call succeeds. -/
def envDup2Fail : Env :=
  ⟨["opensock", "eth0", "/bin/true"], some 3, fun _ => 2, true, false, true, true⟩

theorem drop_two_head (l : List String) (h : 3 ≤ l.length) :
    (l.drop 2).head? = some (nth l 2) := by
  rcases l with _ | ⟨a, _ | ⟨b, _ | ⟨c, t⟩⟩⟩
  · simp at h
  · simp at h
  · simp at h
  · rfl

/-! ## Path lemmas: the trace and outcome of each execution path of `main` -/

theorem main_usage (e : Env) (h : e.argv.length < 3) :
    main e = ([Event.errMsg ("Usage: " ++ nth e.argv 0 ++ " <interface> prog args ...")],
              Outcome.exited 1) := by
  simp [main, h]

theorem main_nosock (e : Env) (h1 : ¬ e.argv.length < 3) (h2 : e.socketFd = none) :
    main e = ([Event.sockCall AF_PACKET SOCK_RAW (htons 0x88b5),
               Event.errMsg "cannot open socket"], Outcome.exited 1) := by
  simp [main, h1, h2]

theorem main_noiface (e : Env) (s : Nat) (h1 : ¬ e.argv.length < 3)
    (h2 : e.socketFd = some s) (h3 : e.ifIndexOf (nth e.argv 1) = 0) :
    main e = ([Event.sockCall AF_PACKET SOCK_RAW (htons 0x88b5),
               Event.ifLookup (nth e.argv 1),
               Event.errMsg "cannot find interface"], Outcome.exited 1) := by
  simp [main, h1, h2, h3]

theorem main_nosso (e : Env) (s : Nat) (h1 : ¬ e.argv.length < 3)
    (h2 : e.socketFd = some s) (h3 : ¬ e.ifIndexOf (nth e.argv 1) = 0)
    (h4 : e.setsockoptOk = false) :
    main e = ([Event.sockCall AF_PACKET SOCK_RAW (htons 0x88b5),
               Event.ifLookup (nth e.argv 1),
               Event.setsockoptCall SOL_PACKET PACKET_ADD_MEMBERSHIP
                 ⟨e.ifIndexOf (nth e.argv 1), PACKET_MR_MULTICAST, 6,
                  [0x71, 0xb3, 0xd5, 0x3a, 0x6f, 0x00]⟩,
               Event.errMsg "cannot setsockopt"], Outcome.exited 1) := by
  simp [main, h1, h2, h3, h4]

theorem main_execfail (e : Env) (s : Nat) (h1 : ¬ e.argv.length < 3)
    (h2 : e.socketFd = some s) (h3 : ¬ e.ifIndexOf (nth e.argv 1) = 0)
    (h4 : e.setsockoptOk = true) (h5 : e.execOk = false) :
    main e = ([Event.sockCall AF_PACKET SOCK_RAW (htons 0x88b5),
               Event.ifLookup (nth e.argv 1),
               Event.setsockoptCall SOL_PACKET PACKET_ADD_MEMBERSHIP
                 ⟨e.ifIndexOf (nth e.argv 1), PACKET_MR_MULTICAST, 6,
                  [0x71, 0xb3, 0xd5, 0x3a, 0x6f, 0x00]⟩,
               Event.dup2Call s 42, Event.closeCall s,
               Event.execCall (nth e.argv 2) (e.argv.drop 2),
               Event.errMsg "exec failed"], Outcome.exited 1) := by
  simp [main, h1, h2, h3, h4, h5]

theorem main_ok (e : Env) (s : Nat) (h1 : ¬ e.argv.length < 3)
    (h2 : e.socketFd = some s) (h3 : ¬ e.ifIndexOf (nth e.argv 1) = 0)
    (h4 : e.setsockoptOk = true) (h5 : e.execOk = true) :
    main e = ([Event.sockCall AF_PACKET SOCK_RAW (htons 0x88b5),
               Event.ifLookup (nth e.argv 1),
               Event.setsockoptCall SOL_PACKET PACKET_ADD_MEMBERSHIP
                 ⟨e.ifIndexOf (nth e.argv 1), PACKET_MR_MULTICAST, 6,
                  [0x71, 0xb3, 0xd5, 0x3a, 0x6f, 0x00]⟩,
               Event.dup2Call s 42, Event.closeCall s,
               Event.execCall (nth e.argv 2) (e.argv.drop 2)],
              Outcome.replaced (nth e.argv 2) (e.argv.drop 2)) := by
  simp [main, h1, h2, h3, h4, h5]

/-! ## Claim theorems -/

/-- C3: in every run that passes argument validation, the socket requested
from the operating system is a raw (`SOCK_RAW`), packet-family (`AF_PACKET`)
socket whose protocol argument is the EtherType `0x88b5` encoded in network
byte order (big-endian bytes `0x88`, `0xb5`); the request is the run's first
event. -/
theorem socket_is_raw_packet_88b5 (e : Env) (h : 3 ≤ e.argv.length) :
    (main e).1.head? = some (Event.sockCall AF_PACKET SOCK_RAW (htons 0x88b5)) ∧
    htons 0x88b5 = [0x88, 0xb5] := by
  have h1 : ¬ e.argv.length < 3 := Nat.not_lt.mpr h
  refine ⟨?_, by decide⟩
  cases h2 : e.socketFd with
  | none => rw [main_nosock e h1 h2]; rfl
  | some s =>
    by_cases h3 : e.ifIndexOf (nth e.argv 1) = 0
    · rw [main_noiface e s h1 h2 h3]; rfl
    · cases h4 : e.setsockoptOk with
      | false => rw [main_nosso e s h1 h2 h3 h4]; rfl
      | true =>
        cases h5 : e.execOk with
        | false => rw [main_execfail e s h1 h2 h3 h4 h5]; rfl
        | true => rw [main_ok e s h1 h2 h3 h4 h5]; rfl

theorem socket_is_raw_packet_88b5_witness :
    (main envOk).1.head? = some (Event.sockCall AF_PACKET SOCK_RAW (htons 0x88b5)) ∧
    htons 0x88b5 = [0x88, 0xb5] :=
  socket_is_raw_packet_88b5 envOk (by decide)

/-- C5: every invocation with fewer than two trailing arguments produces
exactly one event — the usage diagnostic on the error stream — and exits
with status 1; in particular no socket call is made and there is no other
side effect. -/
theorem usage_error_no_socket (e : Env) (h : e.argv.length < 3) :
    (main e).1 =
      [Event.errMsg ("Usage: " ++ nth e.argv 0 ++ " <interface> prog args ...")] ∧
    (main e).2 = Outcome.exited 1 ∧
    (main e).1.all (fun ev => !(isSockCall ev)) = true := by
  rw [main_usage e h]
  exact ⟨rfl, rfl, rfl⟩

theorem usage_error_no_socket_witness :
    (main envUsage).1 =
      [Event.errMsg ("Usage: " ++ nth envUsage.argv 0 ++ " <interface> prog args ...")] ∧
    (main envUsage).2 = Outcome.exited 1 ∧
    (main envUsage).1.all (fun ev => !(isSockCall ev)) = true :=
  usage_error_no_socket envUsage (by decide)

/-- C6: every invocation whose interface name does not resolve (the kernel
returns index 0) emits the interface diagnostic and exits with status 1,
and the trace contains no `execvp` call: the target program is never
launched. -/
theorem iface_failure_no_exec (e : Env) (s : Nat) (h1 : 3 ≤ e.argv.length)
    (h2 : e.socketFd = some s) (h3 : e.ifIndexOf (nth e.argv 1) = 0) :
    (main e).2 = Outcome.exited 1 ∧
    Event.errMsg "cannot find interface" ∈ (main e).1 ∧
    (main e).1.all (fun ev => !(isExec ev)) = true := by
  rw [main_noiface e s (Nat.not_lt.mpr h1) h2 h3]
  exact ⟨rfl, by simp, rfl⟩

theorem iface_failure_no_exec_witness :
    (main envNoIface).2 = Outcome.exited 1 ∧
    Event.errMsg "cannot find interface" ∈ (main envNoIface).1 ∧
    (main envNoIface).1.all (fun ev => !(isExec ev)) = true :=
  iface_failure_no_exec envNoIface 3 (by decide) rfl rfl

/-- C7: in every run, no interface lookup happens before the socket-creation
attempt; and a run whose socket creation is refused exits with status 1
carrying the socket-creation diagnostic, with no interface lookup anywhere
in its trace. -/
theorem socket_attempt_precedes_resolution (e : Env) :
    resolutionAfterSocket (main e).1 = true ∧
    (3 ≤ e.argv.length → e.socketFd = none →
      (main e).2 = Outcome.exited 1 ∧
      Event.errMsg "cannot open socket" ∈ (main e).1 ∧
      (main e).1.all (fun ev => !(isIfLookup ev)) = true) := by
  constructor
  · by_cases h1 : e.argv.length < 3
    · rw [main_usage e h1]; rfl
    · cases h2 : e.socketFd with
      | none => rw [main_nosock e h1 h2]; rfl
      | some s =>
        by_cases h3 : e.ifIndexOf (nth e.argv 1) = 0
        · rw [main_noiface e s h1 h2 h3]; rfl
        · cases h4 : e.setsockoptOk with
          | false => rw [main_nosso e s h1 h2 h3 h4]; rfl
          | true =>
            cases h5 : e.execOk with
            | false => rw [main_execfail e s h1 h2 h3 h4 h5]; rfl
            | true => rw [main_ok e s h1 h2 h3 h4 h5]; rfl
  · intro hlen hnone
    rw [main_nosock e (Nat.not_lt.mpr hlen) hnone]
    exact ⟨rfl, by simp, rfl⟩

theorem socket_attempt_precedes_resolution_witness :
    resolutionAfterSocket (main envNoSock).1 = true ∧
    (main envNoSock).2 = Outcome.exited 1 ∧
    Event.errMsg "cannot open socket" ∈ (main envNoSock).1 ∧
    (main envNoSock).1.all (fun ev => !(isIfLookup ev)) = true := by
  have h := socket_attempt_precedes_resolution envNoSock
  exact ⟨h.1, (h.2 (by decide) rfl).1, (h.2 (by decide) rfl).2.1,
         (h.2 (by decide) rfl).2.2⟩

/-- C2: every run that reaches the group-join step issues a membership-add
request (`SOL_PACKET`/`PACKET_ADD_MEMBERSHIP`) carrying exactly the
resolved interface index, the `PACKET_MR_MULTICAST` membership type, and the
fixed 6-byte hardware address `71:b3:d5:3a:6f:00`; if the kernel rejects the
request, the run exits with status 1 after its diagnostic and never reaches
the dup2 relocation. -/
theorem membership_request_exact (e : Env) (s : Nat) (h1 : 3 ≤ e.argv.length)
    (h2 : e.socketFd = some s) (h3 : ¬ e.ifIndexOf (nth e.argv 1) = 0) :
    Event.setsockoptCall SOL_PACKET PACKET_ADD_MEMBERSHIP
        ⟨e.ifIndexOf (nth e.argv 1), PACKET_MR_MULTICAST, 6,
         [0x71, 0xb3, 0xd5, 0x3a, 0x6f, 0x00]⟩ ∈ (main e).1 ∧
    (e.setsockoptOk = false →
      (main e).2 = Outcome.exited 1 ∧
      Event.errMsg "cannot setsockopt" ∈ (main e).1 ∧
      (main e).1.all (fun ev => !(isDup2 ev)) = true) := by
  have h1' := Nat.not_lt.mpr h1
  cases h4 : e.setsockoptOk with
  | false =>
    rw [main_nosso e s h1' h2 h3 h4]
    exact ⟨by simp, fun _ => ⟨rfl, by simp, rfl⟩⟩
  | true =>
    cases h5 : e.execOk with
    | false =>
      rw [main_execfail e s h1' h2 h3 h4 h5]
      exact ⟨by simp, fun hc => Bool.noConfusion hc⟩
    | true =>
      rw [main_ok e s h1' h2 h3 h4 h5]
      exact ⟨by simp, fun hc => Bool.noConfusion hc⟩

theorem membership_request_exact_witness :
    Event.setsockoptCall SOL_PACKET PACKET_ADD_MEMBERSHIP
        ⟨envNoSso.ifIndexOf (nth envNoSso.argv 1), PACKET_MR_MULTICAST, 6,
         [0x71, 0xb3, 0xd5, 0x3a, 0x6f, 0x00]⟩ ∈ (main envNoSso).1 ∧
    (main envNoSso).2 = Outcome.exited 1 ∧
    Event.errMsg "cannot setsockopt" ∈ (main envNoSso).1 ∧
    (main envNoSso).1.all (fun ev => !(isDup2 ev)) = true := by
  have h := membership_request_exact envNoSso 3 (by decide) rfl (by decide)
  exact ⟨h.1, (h.2 rfl).1, (h.2 rfl).2.1, (h.2 rfl).2.2⟩

/-- C4: every run that reaches the image-replacement step calls `execvp`
(search-path lookup) on the third command-line argument, passing the
command line from that argument onward, unmodified, as the new argument
vector (its first element is the target program path); if the replacement
succeeds the process image is replaced, and if it fails the run exits with
status 1 after the exec diagnostic. -/
theorem exec_passthrough (e : Env) (s : Nat) (h1 : 3 ≤ e.argv.length)
    (h2 : e.socketFd = some s) (h3 : ¬ e.ifIndexOf (nth e.argv 1) = 0)
    (h4 : e.setsockoptOk = true) :
    Event.execCall (nth e.argv 2) (e.argv.drop 2) ∈ (main e).1 ∧
    (e.argv.drop 2).head? = some (nth e.argv 2) ∧
    (e.execOk = true →
      (main e).2 = Outcome.replaced (nth e.argv 2) (e.argv.drop 2)) ∧
    (e.execOk = false →
      (main e).2 = Outcome.exited 1 ∧
      Event.errMsg "exec failed" ∈ (main e).1) := by
  have h1' := Nat.not_lt.mpr h1
  cases h5 : e.execOk with
  | false =>
    rw [main_execfail e s h1' h2 h3 h4 h5]
    exact ⟨by simp, drop_two_head e.argv h1,
           fun hc => Bool.noConfusion hc,
           fun _ => ⟨rfl, by simp⟩⟩
  | true =>
    rw [main_ok e s h1' h2 h3 h4 h5]
    exact ⟨by simp, drop_two_head e.argv h1, fun _ => rfl,
           fun hc => Bool.noConfusion hc⟩

theorem exec_passthrough_witness :
    Event.execCall (nth envExecFail.argv 2) (envExecFail.argv.drop 2) ∈
        (main envExecFail).1 ∧
    (envExecFail.argv.drop 2).head? = some (nth envExecFail.argv 2) ∧
    (main envExecFail).2 = Outcome.exited 1 ∧
    Event.errMsg "exec failed" ∈ (main envExecFail).1 := by
  have h := exec_passthrough envExecFail 3 (by decide) rfl (by decide) rfl
  exact ⟨h.1, h.2.1, (h.2.2.2 rfl).1, (h.2.2.2 rfl).2⟩

/-- C8 fails as stated: in the run where every checked call succeeds but the
kernel refuses the `dup2` call (whose result line 53 of the source
discards), an error occurs in the relocation step yet the run writes no
diagnostic and does not exit — it proceeds to image replacement.  So not
every error in every step is terminal: the dup2 error is swallowed. -/
theorem error_swallowed_on_dup2 :
    envDup2Fail.dup2Ok = false ∧
    Event.dup2Call 3 42 ∈ (main envDup2Fail).1 ∧
    (main envDup2Fail).2 = Outcome.replaced "/bin/true" ["/bin/true"] ∧
    (main envDup2Fail).1.all (fun ev => !(isErrMsg ev)) = true := by
  decide

/-- C8 (amended): every run either ends in image replacement or exits with
status exactly 1, and every run that exits has written a diagnostic to the
error stream; every error the program examines (missing arguments, socket
creation, interface resolution, membership registration, image replacement)
is terminal at its point of detection, while the results of `dup2` and
`close` are discarded unexamined. -/
theorem every_failure_exits_one_with_diagnostic (e : Env) :
    ((main e).2 = Outcome.exited 1 ∨ ∃ p a, (main e).2 = Outcome.replaced p a) ∧
    (∀ c, (main e).2 = Outcome.exited c →
      c = 1 ∧ ∃ m, Event.errMsg m ∈ (main e).1) := by
  by_cases h1 : e.argv.length < 3
  · rw [main_usage e h1]
    refine ⟨Or.inl rfl, fun c hc => ?_⟩
    injection hc with h
    exact ⟨h.symm, "Usage: " ++ nth e.argv 0 ++ " <interface> prog args ...", by simp⟩
  · cases h2 : e.socketFd with
    | none =>
      rw [main_nosock e h1 h2]
      refine ⟨Or.inl rfl, fun c hc => ?_⟩
      injection hc with h
      exact ⟨h.symm, "cannot open socket", by simp⟩
    | some s =>
      by_cases h3 : e.ifIndexOf (nth e.argv 1) = 0
      · rw [main_noiface e s h1 h2 h3]
        refine ⟨Or.inl rfl, fun c hc => ?_⟩
        injection hc with h
        exact ⟨h.symm, "cannot find interface", by simp⟩
      · cases h4 : e.setsockoptOk with
        | false =>
          rw [main_nosso e s h1 h2 h3 h4]
          refine ⟨Or.inl rfl, fun c hc => ?_⟩
          injection hc with h
          exact ⟨h.symm, "cannot setsockopt", by simp⟩
        | true =>
          cases h5 : e.execOk with
          | false =>
            rw [main_execfail e s h1 h2 h3 h4 h5]
            refine ⟨Or.inl rfl, fun c hc => ?_⟩
            injection hc with h
            exact ⟨h.symm, "exec failed", by simp⟩
          | true =>
            rw [main_ok e s h1 h2 h3 h4 h5]
            exact ⟨Or.inr ⟨_, _, rfl⟩, fun c hc => Outcome.noConfusion hc⟩

theorem every_failure_exits_one_with_diagnostic_witness :
    (1 : Nat) = 1 ∧ ∃ m, Event.errMsg m ∈ (main envNoSock).1 :=
  (every_failure_exits_one_with_diagnostic envNoSock).2 1 (by decide)

/-- C10: on an interface-resolution failure or a membership-registration
failure the run exits with status 1 and its trace contains no `close` call,
so the descriptor the socket call returned still refers to the open socket
when the process terminates. -/
theorem error_paths_leak_socket (e : Env) (s : Nat) (h1 : 3 ≤ e.argv.length)
    (h2 : e.socketFd = some s)
    (h3 : e.ifIndexOf (nth e.argv 1) = 0 ∨ e.setsockoptOk = false) :
    (main e).2 = Outcome.exited 1 ∧
    (main e).1.all (fun ev => !(isClose ev)) = true ∧
    socketFds e = {s} := by
  have h1' := Nat.not_lt.mpr h1
  by_cases hif : e.ifIndexOf (nth e.argv 1) = 0
  · refine ⟨?_, ?_, ?_⟩
    · rw [main_noiface e s h1' h2 hif]
    · rw [main_noiface e s h1' h2 hif]; rfl
    · simp only [socketFds, h2]
      rw [main_noiface e s h1' h2 hif]; rfl
  · have h4 : e.setsockoptOk = false := h3.resolve_left hif
    refine ⟨?_, ?_, ?_⟩
    · rw [main_nosso e s h1' h2 hif h4]
    · rw [main_nosso e s h1' h2 hif h4]; rfl
    · simp only [socketFds, h2]
      rw [main_nosso e s h1' h2 hif h4]; rfl

theorem error_paths_leak_socket_witness :
    (main envNoIface).2 = Outcome.exited 1 ∧
    (main envNoIface).1.all (fun ev => !(isClose ev)) = true ∧
    socketFds envNoIface = {3} :=
  error_paths_leak_socket envNoIface 3 (by decide) rfl (Or.inl rfl)

/-- C1 fails on the code: at the input where the kernel itself handed out
descriptor 42 for the socket (slots 0-41 already occupied at startup), the
run still reaches the `execvp` call, but after the `dup2`/`close` sequence
no descriptor opened by this program remains open at all — in particular
slot 42 does not refer to the socket, contradicting the claimed relocation
invariant; the spec's stated intent (exactly one descriptor, at slot 42,
for the configured socket) is what the unguarded `dup2(sock, 42);
close(sock);` fails to deliver when `sock = 42`. -/
theorem relocation_invariant_fails_at_fd42 :
    Event.execCall "/bin/true" ["/bin/true"] ∈ (main env42).1 ∧
    socketFds env42 = ∅ ∧ socketFds env42 ≠ {42} := by
  refine ⟨by decide, by decide, by decide⟩

/-- C9: in any run where the operating system allocated descriptor 42 for
the socket itself, the duplication onto slot 42 is a no-op on the
descriptor table, and the subsequent close of the original descriptor
removes the only reference, so the run proceeds to the `execvp` call with
no descriptor referring to the socket — in particular none at slot 42. -/
theorem fd42_dup2_noop_then_closed (e : Env) (h1 : 3 ≤ e.argv.length)
    (h2 : e.socketFd = some 42) (h3 : ¬ e.ifIndexOf (nth e.argv 1) = 0)
    (h4 : e.setsockoptOk = true) :
    applyFd {42} (Event.dup2Call 42 42) = {42} ∧
    Event.execCall (nth e.argv 2) (e.argv.drop 2) ∈ (main e).1 ∧
    socketFds e = ∅ ∧ 42 ∉ socketFds e := by
  have h1' := Nat.not_lt.mpr h1
  have hfds : socketFds e = ∅ := by
    simp only [socketFds, h2]
    cases h5 : e.execOk with
    | false =>
      rw [main_execfail e 42 h1' h2 h3 h4 h5]
      simp [applyFd, Finset.erase_singleton]
    | true =>
      rw [main_ok e 42 h1' h2 h3 h4 h5]
      simp [applyFd, Finset.erase_singleton]
  refine ⟨by decide, ?_, hfds, by rw [hfds]; exact Finset.not_mem_empty 42⟩
  cases h5 : e.execOk with
  | false => rw [main_execfail e 42 h1' h2 h3 h4 h5]; simp
  | true => rw [main_ok e 42 h1' h2 h3 h4 h5]; simp

theorem fd42_dup2_noop_then_closed_witness :
    applyFd {42} (Event.dup2Call 42 42) = {42} ∧
    Event.execCall (nth env42b.argv 2) (env42b.argv.drop 2) ∈ (main env42b).1 ∧
    socketFds env42b = ∅ ∧ 42 ∉ socketFds env42b :=
  fd42_dup2_noop_then_closed env42b (by decide) rfl (by decide) rfl

end Opensock
